import Mathlib

/-!
Verification of the transaction lifecycle orchestration of the
stellar-wrap-frontend repository.

The embedding follows the source files:
- src/app/store/transactionStore.ts   - the persisted Zustand store (pure record updates);
- src/services/transactionObserver.ts - the TransactionObserver class: lifecycle mutators
  and the confirmation-polling sub-protocol, with its two timers modelled as explicit
  optional handles plus a logical clock, and timer firings delivered as explicit events
  (a cleared handle never fires, matching clearInterval/clearTimeout semantics);
- src/app/utils/walletKit.ts          - mintWrap: stats resolution, the bridged observer
  that fans out contract-bridge notifications to the caller callback and the store, and
  the catch-clause error policy.
-/

/-! ## Data model: the persisted transaction store (src/app/store/transactionStore.ts) -/

/-- The TransactionState union type from transactionStore.ts. -/
inductive TransactionState
  | idle
  | building
  | simulating
  | simulated
  | signing
  | signed
  | submitting
  | submitted
  | confirming
  | confirmed
  | failed
deriving DecidableEq, Repr

/-- The persisted store record: transactionState, transactionHash, transactionError. -/
structure TransactionStore where
  transactionState : TransactionState
  transactionHash : Option String
  transactionError : Option String
deriving DecidableEq, Repr

/-- Store action setTransactionState. -/
def setTransactionState (s : TransactionState) (st : TransactionStore) : TransactionStore :=
  { st with transactionState := s }

/-- Store action setTransactionHash. -/
def setTransactionHash (h : Option String) (st : TransactionStore) : TransactionStore :=
  { st with transactionHash := h }

/-- Store action setTransactionError. -/
def setTransactionError (e : Option String) (st : TransactionStore) : TransactionStore :=
  { st with transactionError := e }

/-- Store action resetTransaction: idle, null hash, null error. -/
def resetTransaction (_st : TransactionStore) : TransactionStore :=
  { transactionState := .idle, transactionHash := none, transactionError := none }

/-- The store's initial state. -/
def initialStore : TransactionStore :=
  { transactionState := .idle, transactionHash := none, transactionError := none }

/-! ## TransactionObserver (src/services/transactionObserver.ts) -/

/-- A JavaScript Error value, reduced to its message. -/
structure JsError where
  message : String
deriving DecidableEq, Repr

/-- The `Error | string` argument type of markFailed. -/
inductive ErrorOrString
  | err (e : JsError)
  | str (s : String)
deriving DecidableEq, Repr

/-- The message extraction in markFailed:
`error instanceof Error ? error.message : error`. -/
def ErrorOrString.message : ErrorOrString → String
  | .err e => e.message
  | .str s => s

/-- rpc.Api.GetTransactionStatus values returned by the ledger status query. -/
inductive GetTransactionStatus
  | SUCCESS
  | FAILED
  | NOT_FOUND
deriving DecidableEq, Repr

/-- Outcome of one server.getTransaction call: a status, or a thrown/rejected query. -/
inductive QueryOutcome
  | ok (s : GetTransactionStatus)
  | queryError
deriving DecidableEq, Repr

/-- MAX_POLLING_DURATION = 60000 ms. -/
def MAX_POLLING_DURATION : Nat := 60000

/-- POLLING_INTERVAL = 3000 ms. -/
def POLLING_INTERVAL : Nat := 3000

/-- The TransactionObserver instance state: the shared store, the two timer fields
(pollInterval carries its handle and the txHash captured by its closure; timeoutTimer
carries its handle and its scheduled fire time), a fresh-handle counter, and a clock. -/
structure ObserverState where
  store : TransactionStore
  pollTimer : Option (Nat × String)
  deadlineTimer : Option (Nat × Nat)
  nextHandle : Nat
  now : Nat
deriving DecidableEq, Repr

/-- The singleton transactionObserver at module start: idle store, no timers. -/
def initialObserver : ObserverState :=
  { store := initialStore, pollTimer := none, deadlineTimer := none,
    nextHandle := 0, now := 0 }

/-- private setState: write the tag through the store. -/
def setState (s : TransactionState) (o : ObserverState) : ObserverState :=
  { o with store := setTransactionState s o.store }

/-- private clearTimers: clearInterval + clearTimeout, null both fields. -/
def clearTimers (o : ObserverState) : ObserverState :=
  { o with pollTimer := none, deadlineTimer := none }

/-- markFailed: clearTimers, record the message, then set the failed tag. -/
def markFailed (error : ErrorOrString) (o : ObserverState) : ObserverState :=
  let o1 := clearTimers o
  let o2 := { o1 with store := setTransactionError (some error.message) o1.store }
  setState .failed o2

/-- private startPolling: set confirming, clear any existing timers, then install a
fresh repeating poll timer and a one-shot deadline timer at now + MAX_POLLING_DURATION. -/
def startPolling (txHash : String) (o : ObserverState) : ObserverState :=
  let o1 := setState .confirming o
  let o2 := clearTimers o1
  { o2 with
    pollTimer := some (o2.nextHandle, txHash),
    deadlineTimer := some (o2.nextHandle + 1, o2.now + MAX_POLLING_DURATION),
    nextHandle := o2.nextHandle + 2 }

/-- resetState: clearTimers then resetTransaction on the store. -/
def resetState (o : ObserverState) : ObserverState :=
  let o1 := clearTimers o
  { o1 with store := resetTransaction o1.store }

/-- startTransaction: resetState then set building. -/
def startTransaction (o : ObserverState) : ObserverState :=
  setState .building (resetState o)

/-- markSimulating. -/
def markSimulating (o : ObserverState) : ObserverState := setState .simulating o

/-- markSimulated. -/
def markSimulated (o : ObserverState) : ObserverState := setState .simulated o

/-- markSigning. -/
def markSigning (o : ObserverState) : ObserverState := setState .signing o

/-- markSigned. -/
def markSigned (o : ObserverState) : ObserverState := setState .signed o

/-- markSubmitting. -/
def markSubmitting (o : ObserverState) : ObserverState := setState .submitting o

/-- markSubmitted: store the hash, set submitted, then startPolling. -/
def markSubmitted (txHash : String) (o : ObserverState) : ObserverState :=
  startPolling txHash
    (setState .submitted { o with store := setTransactionHash (some txHash) o.store })

/-- private checkTransactionStatus, given the query's outcome: SUCCESS clears timers and
sets confirmed; FAILED clears timers and markFailed with the ledger-failure message;
NOT_FOUND does nothing; a thrown query is caught, logged, and does nothing. -/
def checkTransactionStatus (outcome : QueryOutcome) (o : ObserverState) : ObserverState :=
  match outcome with
  | .ok .SUCCESS => setState .confirmed (clearTimers o)
  | .ok .FAILED => markFailed (.str "Transaction failed on the ledger.") (clearTimers o)
  | .ok .NOT_FOUND => o
  | .queryError => o

/-- The deadline timer's callback body: clearTimers then markFailed with the
timeout message. -/
def onDeadline (o : ObserverState) : ObserverState :=
  markFailed (.str "Transaction confirmation timed out after 60 seconds.") (clearTimers o)

/-- resumeIfPending: restart polling from the stored hash when the persisted tag is
submitted or confirming and the hash is truthy (non-null and non-empty). -/
def resumeIfPending (o : ObserverState) : ObserverState :=
  match o.store.transactionHash with
  | some h =>
      if (o.store.transactionState = .submitted ∨ o.store.transactionState = .confirming)
          ∧ h ≠ "" then
        startPolling h o
      else o
  | none => o

/-! ## Timer events

The environment delivers timer firings by handle. A handle that no longer matches the
live timer field has been cleared (clearInterval/clearTimeout) and its delivery is a
no-op; the interval callback body runs checkTransactionStatus with the outcome the
network returns for that tick.

This `step` relation collapses the callback's await: the query is issued and its
outcome applied in one atomic action at fire time. In the source the callback is
async — the query is issued at fire time but its outcome is applied only after an
await, with no re-check of timer liveness. The split model `asyncStep` below makes
that suspension point explicit; it is the authority for behaviour that depends on a
query being in flight across a reset. -/

/-- Events the runtime can deliver to the observer. -/
inductive ObsEvent
  | fireInterval (handle : Nat) (outcome : QueryOutcome)
  | fireDeadline (handle : Nat)
  | advance (d : Nat)
deriving DecidableEq, Repr

/-- One event delivery, with the tick's query issued and answered atomically. -/
def step (ev : ObsEvent) (o : ObserverState) : ObserverState :=
  match ev with
  | .fireInterval h outcome =>
      match o.pollTimer with
      | some p => if p.1 = h then checkTransactionStatus outcome o else o
      | none => o
  | .fireDeadline h =>
      match o.deadlineTimer with
      | some d => if d.1 = h then onDeadline o else o
      | none => o
  | .advance d => { o with now := o.now + d }

/-- Whether delivering an event issues a ledger status query: only a live interval
timer's tick calls server.getTransaction. -/
def issuesQuery (ev : ObsEvent) (o : ObserverState) : Bool :=
  match ev with
  | .fireInterval h _ =>
      match o.pollTimer with
      | some p => p.1 = h
      | none => false
  | .fireDeadline _ => false
  | .advance _ => false

/-- Whether any event of a trace issues a status query. -/
def anyQueryIssued : List ObsEvent → ObserverState → Bool
  | [], _ => false
  | ev :: evs, o => issuesQuery ev o || anyQueryIssued evs (step ev o)

/-- Run a trace of events. -/
def runEvents (evs : List ObsEvent) (o : ObserverState) : ObserverState :=
  evs.foldl (fun s e => step e s) o

/-! ## Mutator operations for reachability (the exposed TransactionObserver surface
plus the poller's tick and deadline steps). -/

/-- One exposed mutator operation or poller step. -/
inductive ObsOp
  | startTransaction
  | markSimulating
  | markSimulated
  | markSigning
  | markSigned
  | markSubmitting
  | markSubmitted (txHash : String)
  | markFailed (e : ErrorOrString)
  | resetState
  | tick (handle : Nat) (outcome : QueryOutcome)
  | deadline (handle : Nat)
  | advance (d : Nat)
deriving DecidableEq, Repr

/-- Apply one operation. -/
def applyOp : ObsOp → ObserverState → ObserverState
  | .startTransaction, o => startTransaction o
  | .markSimulating, o => markSimulating o
  | .markSimulated, o => markSimulated o
  | .markSigning, o => markSigning o
  | .markSigned, o => markSigned o
  | .markSubmitting, o => markSubmitting o
  | .markSubmitted h, o => markSubmitted h o
  | .markFailed e, o => markFailed e o
  | .resetState, o => resetState o
  | .tick h outcome, o => step (.fireInterval h outcome) o
  | .deadline h, o => step (.fireDeadline h) o
  | .advance d, o => step (.advance d) o

/-- Run a sequence of operations. -/
def runOps (ops : List ObsOp) (o : ObserverState) : ObserverState :=
  ops.foldl (fun s op => applyOp op s) o

/-! ## walletKit.ts: stats resolution (fetchIndexedStats) -/

/-- The stats record resolved before building the mint options. -/
structure Stats where
  totalVolume : Int
  mostActiveAsset : String
  contractCalls : Int
deriving DecidableEq, Repr

/-- The documented zero-value default stats. -/
def defaultStats : Stats :=
  { totalVolume := 0, mostActiveAsset := "XLM", contractCalls := 0 }

/-- Outcome of the fetch call against the wrapped-stats API: the promise rejects, or a
response arrives with its ok flag and the optional JSON fields the code reads. -/
inductive FetchOutcome
  | reject
  | response (ok : Bool) (totalVolume : Option Int) (mostActiveAsset : Option String)
      (contractCalls : Option Int)
deriving DecidableEq, Repr

/-- The fetch failed: it rejected or returned a non-ok response. -/
def FetchOutcome.isFailure : FetchOutcome → Prop
  | .reject => True
  | .response ok _ _ _ => ok = false

/-- JavaScript `x || d` on an optional numeric JSON field (0 and absence are falsy). -/
def jsOrNum (x : Option Int) (d : Int) : Int :=
  match x with
  | some v => if v = 0 then d else v
  | none => d

/-- JavaScript `x || d` on an optional string JSON field (empty string and absence are
falsy). -/
def jsOrStr (x : Option String) (d : String) : String :=
  match x with
  | some s => if s = "" then d else s
  | none => d

/-- fetchIndexedStats: a non-ok response throws inside the try, and every thrown error
is caught and replaced by the defaults; an ok response is read field-by-field with
JavaScript or-defaults. -/
def fetchIndexedStats (outcome : FetchOutcome) : Stats :=
  match outcome with
  | .reject => defaultStats
  | .response ok tv ma cc =>
      if ok then
        { totalVolume := jsOrNum tv 0,
          mostActiveAsset := jsOrStr ma "XLM",
          contractCalls := jsOrNum cc 0 }
      else defaultStats

/-- Result of the opening phase of mintWrap: the resolved stats and the store after
resetTransaction + setTransactionState building. -/
structure MintSetup where
  stats : Stats
  store : TransactionStore
deriving DecidableEq, Repr

/-- The opening phase of walletKit.ts mintWrap: use caller-supplied stats when present,
else fetchIndexedStats; then resetTransaction and set the building tag on the store. -/
def mintWrapSetup (callerStats : Option Stats) (outcome : FetchOutcome)
    (st : TransactionStore) : MintSetup :=
  let finalStats :=
    match callerStats with
    | some s => s
    | none => fetchIndexedStats outcome
  { stats := finalStats,
    store := setTransactionState .building (resetTransaction st) }

/-- The store-and-timers effect of starting a second mint through walletKit.ts mintWrap:
it resets the shared store and sets building, but touches no TransactionObserver timer
(mintWrap uses the store actions directly, never transactionObserver.resetState). -/
def mintWrapStart (o : ObserverState) : ObserverState :=
  { o with store := setTransactionState .building (resetTransaction o.store) }

/-! ## walletKit.ts: the bridged observer -/

/-- The contract-bridge lifecycle notification tags switched on by bridgedObserver;
`other` stands for any tag the switch has no case for. -/
inductive BridgeEvent
  | pending
  | simulating
  | signed
  | submitted
  | confirmed
  | failed
  | other
deriving DecidableEq, Repr

/-- The optional data payload of a notification, reduced to the two properties the
code reads. A present field models the corresponding `in` test succeeding. -/
structure BridgeData where
  transactionHash : Option String
  error : Option String
deriving DecidableEq, Repr

/-- A caller-supplied observer callback: it may throw (modelled as Except.error). -/
abbrev CallerObserver := BridgeEvent → Option BridgeData → Except String Unit

/-- The switch statement of bridgedObserver: the store update applied for one
notification tag. -/
def applySwitch (ev : BridgeEvent) (data : Option BridgeData)
    (st : TransactionStore) : TransactionStore :=
  match ev with
  | .pending => setTransactionState .building st
  | .simulating => setTransactionState .simulating st
  | .signed => setTransactionState .signing st
  | .submitted => setTransactionState .submitting st
  | .confirmed =>
      let st1 := setTransactionState .confirmed st
      match data with
      | some d =>
          match d.transactionHash with
          | some h => setTransactionHash (some h) st1
          | none => st1
      | none => st1
  | .failed =>
      let st1 := setTransactionState .failed st
      match data with
      | some d =>
          match d.error with
          | some e => setTransactionError (some e) st1
          | none => st1
      | none => st1
  | .other => st

/-- bridgedObserver: first call the caller observer when one was supplied (any throw
propagates immediately), then run the switch that updates the store. -/
def bridgedObserver (observer : Option CallerObserver) (ev : BridgeEvent)
    (data : Option BridgeData) (st : TransactionStore) : Except String TransactionStore :=
  match observer with
  | some f =>
      match f ev data with
      | .error e => .error e
      | .ok _ => .ok (applySwitch ev data st)
  | none => .ok (applySwitch ev data st)

/-- Deliver a sequence of notifications through bridgedObserver, threading the store;
a propagated throw aborts the remainder. -/
def notifyAll (observer : Option CallerObserver)
    (evs : List (BridgeEvent × Option BridgeData)) (st : TransactionStore) :
    Except String TransactionStore :=
  match evs with
  | [] => .ok st
  | (ev, d) :: rest =>
      match bridgedObserver observer ev d st with
      | .error e => .error e
      | .ok st2 => notifyAll observer rest st2

/-! ## walletKit.ts: the mintWrap catch clause -/

/-- The classes of values the catch clause of mintWrap distinguishes: the four typed
configuration/validation errors, any other Error instance, and a thrown non-Error
value. -/
inductive ThrownValue
  | contractConfigurationError (message : String)
  | invalidContractAddressError (message : String)
  | contractNotFoundError (message : String)
  | contractValidationError (message : String)
  | jsError (message : String)
  | nonErrorValue
deriving DecidableEq, Repr

/-- The catch clause of walletKit.ts mintWrap: typed configuration/validation errors are
re-thrown unmodified with the store untouched; any other Error sets failed, records its
message, and re-throws a wrapped Error; a non-Error value sets failed with the generic
wrapped message and throws it. Returns the re-thrown value and the resulting store. -/
def mintWrapCatch (e : ThrownValue) (st : TransactionStore) :
    ThrownValue × TransactionStore :=
  match e with
  | .contractConfigurationError m => (.contractConfigurationError m, st)
  | .invalidContractAddressError m => (.invalidContractAddressError m, st)
  | .contractNotFoundError m => (.contractNotFoundError m, st)
  | .contractValidationError m => (.contractValidationError m, st)
  | .jsError m =>
      let st1 := setTransactionState .failed st
      let st2 := setTransactionError (some m) st1
      (.jsError ("Minting failed: " ++ m), st2)
  | .nonErrorValue =>
      let st1 := setTransactionState .failed st
      let st2 := setTransactionError (some "Minting failed: Unknown error occurred") st1
      (.jsError "Minting failed: Unknown error occurred", st2)

/-- Spec-side restatement of the resume enabling condition: persisted tag submitted or
confirming and a non-empty hash present. Compared against resumeIfPending. -/
def resumeCondition (o : ObserverState) : Bool :=
  match o.store.transactionHash with
  | some h =>
      decide ((o.store.transactionState = .submitted
        ∨ o.store.transactionState = .confirming) ∧ h ≠ "")
  | none => false

/-- Concrete observer state used to witness the resume theorem: submitted with a
non-empty persisted hash and no live session. -/
def resumeWitnessState : ObserverState :=
  { store := { transactionState := .submitted, transactionHash := some "abc",
               transactionError := none },
    pollTimer := none, deadlineTimer := none, nextHandle := 0, now := 0 }

/-! ## The async tick model

The interval callback in the source is async: firing the timer starts the callback,
which immediately issues server.getTransaction(txHash) and suspends on the await; the
outcome branches of checkTransactionStatus run only when that promise resolves,
against the then-current observer, with no re-check that the session is still live.
clearInterval stops future firings but cannot cancel a continuation already awaiting,
so a query in flight at resetState still applies its outcome afterwards. The model
splits each tick into a fire event (issue the query, record it as in flight) and a
resolve event (apply checkTransactionStatus for the outcome, drop the pending entry). -/

/-- Observer state together with the status queries currently in flight (each entry is
the txHash captured by a suspended interval-callback continuation). -/
structure AsyncObserverState where
  base : ObserverState
  inFlight : List String
deriving DecidableEq, Repr

/-- Events of the split model: a timer firing issues a query and suspends; a resolve
event delivers the outcome of the i-th in-flight query to its waiting continuation;
the deadline callback has no await and stays atomic. -/
inductive AsyncEvent
  | fireInterval (handle : Nat)
  | resolveQuery (i : Nat) (outcome : QueryOutcome)
  | fireDeadline (handle : Nat)
  | advance (d : Nat)
deriving DecidableEq, Repr

/-- One async event delivery. A live interval firing only issues the query; the
outcome is applied at resolve time to the current state, with no liveness re-check —
exactly the post-await half of checkTransactionStatus. -/
def asyncStep (ev : AsyncEvent) (a : AsyncObserverState) : AsyncObserverState :=
  match ev with
  | .fireInterval h =>
      match a.base.pollTimer with
      | some p => if p.1 = h then { a with inFlight := a.inFlight ++ [p.2] } else a
      | none => a
  | .resolveQuery i outcome =>
      match a.inFlight.get? i with
      | some _ =>
          { base := checkTransactionStatus outcome a.base,
            inFlight := a.inFlight.eraseIdx i }
      | none => a
  | .fireDeadline h =>
      match a.base.deadlineTimer with
      | some d => if d.1 = h then { a with base := onDeadline a.base } else a
      | none => a
  | .advance d => { a with base := { a.base with now := a.base.now + d } }

/-- resetState seen by the async model: it clears the timers and the store
synchronously but cancels no in-flight query continuation. -/
def asyncResetState (a : AsyncObserverState) : AsyncObserverState :=
  { a with base := resetState a.base }

/-- Run a trace of async events. -/
def runAsync (evs : List AsyncEvent) (a : AsyncObserverState) : AsyncObserverState :=
  evs.foldl (fun s e => asyncStep e s) a

/-- First mint polling with its tick's query in flight, then reset: the concrete
scenario of the C6 counterexample. -/
def c6AfterReset : AsyncObserverState :=
  asyncResetState (asyncStep (AsyncEvent.fireInterval 0)
    { base := markSubmitted "h" initialObserver, inFlight := [] })

/-- The in-flight query of that scenario resolving SUCCESS after the reset. -/
def c6Resolved : AsyncObserverState :=
  asyncStep (AsyncEvent.resolveQuery 0 (QueryOutcome.ok GetTransactionStatus.SUCCESS))
    c6AfterReset

/-! ## Helper lemmas -/

/-- markFailed always lands on the failed tag with the message recorded. -/
theorem markFailed_store (e : ErrorOrString) (o : ObserverState) :
    (markFailed e o).store.transactionState = TransactionState.failed ∧
    (markFailed e o).store.transactionError = some e.message :=
  ⟨rfl, rfl⟩

/-- With both timer fields cleared, delivering any event leaves the store unchanged and
the timer fields cleared. -/
theorem step_noTimers (ev : ObsEvent) (o : ObserverState)
    (hp : o.pollTimer = none) (hd : o.deadlineTimer = none) :
    (step ev o).store = o.store ∧ (step ev o).pollTimer = none ∧
    (step ev o).deadlineTimer = none := by
  cases ev with
  | fireInterval h outcome =>
      have hs : step (.fireInterval h outcome) o = o := by simp [step, hp]
      rw [hs]; exact ⟨rfl, hp, hd⟩
  | fireDeadline h =>
      have hs : step (.fireDeadline h) o = o := by simp [step, hd]
      rw [hs]; exact ⟨rfl, hp, hd⟩
  | advance d => exact ⟨rfl, hp, hd⟩

/-- With both timer fields cleared, no trace of events changes the store. -/
theorem runEvents_noTimers (evs : List ObsEvent) (o : ObserverState)
    (hp : o.pollTimer = none) (hd : o.deadlineTimer = none) :
    (runEvents evs o).store = o.store := by
  induction evs generalizing o with
  | nil => rfl
  | cons ev rest ih =>
      have h := step_noTimers ev o hp hd
      have hr : runEvents (ev :: rest) o = runEvents rest (step ev o) := rfl
      rw [hr, ih (step ev o) h.2.1 h.2.2, h.1]

/-- With both timer fields cleared, no trace of events ever issues a status query. -/
theorem anyQueryIssued_noTimers (evs : List ObsEvent) (o : ObserverState)
    (hp : o.pollTimer = none) (hd : o.deadlineTimer = none) :
    anyQueryIssued evs o = false := by
  induction evs generalizing o with
  | nil => rfl
  | cons ev rest ih =>
      have h := step_noTimers ev o hp hd
      have hq : issuesQuery ev o = false := by
        cases ev <;> simp [issuesQuery, hp]
      simp [anyQueryIssued, hq, ih (step ev o) h.2.1 h.2.2]

/-- Delivering notifications through bridgedObserver with no caller observer applies
every switch in order to the store. -/
theorem notifyAll_none (evs : List (BridgeEvent × Option BridgeData))
    (st : TransactionStore) :
    notifyAll none evs st
      = Except.ok (evs.foldl (fun s p => applySwitch p.1 p.2 s) st) := by
  induction evs generalizing st with
  | nil => rfl
  | cons p rest ih =>
      cases p with
      | mk ev d => simpa [notifyAll, bridgedObserver] using ih (applySwitch ev d st)

/-- With both timers cleared and no query in flight, any async event leaves the store
unchanged and the state quiescent. -/
theorem asyncStep_quiescent (ev : AsyncEvent) (a : AsyncObserverState)
    (hp : a.base.pollTimer = none) (hd : a.base.deadlineTimer = none)
    (hf : a.inFlight = []) :
    (asyncStep ev a).base.store = a.base.store ∧
    (asyncStep ev a).base.pollTimer = none ∧
    (asyncStep ev a).base.deadlineTimer = none ∧
    (asyncStep ev a).inFlight = [] := by
  cases ev with
  | fireInterval h =>
      have hs : asyncStep (.fireInterval h) a = a := by simp [asyncStep, hp]
      rw [hs]; exact ⟨rfl, hp, hd, hf⟩
  | resolveQuery i outcome =>
      have hs : asyncStep (.resolveQuery i outcome) a = a := by
        simp [asyncStep, hf]
      rw [hs]; exact ⟨rfl, hp, hd, hf⟩
  | fireDeadline h =>
      have hs : asyncStep (.fireDeadline h) a = a := by simp [asyncStep, hd]
      rw [hs]; exact ⟨rfl, hp, hd, hf⟩
  | advance d => exact ⟨rfl, hp, hd, hf⟩

/-- With both timers cleared and no query in flight, no async trace changes the store. -/
theorem runAsync_quiescent (evs : List AsyncEvent) (a : AsyncObserverState)
    (hp : a.base.pollTimer = none) (hd : a.base.deadlineTimer = none)
    (hf : a.inFlight = []) :
    (runAsync evs a).base.store = a.base.store := by
  induction evs generalizing a with
  | nil => rfl
  | cons ev rest ih =>
      have h := asyncStep_quiescent ev a hp hd hf
      have hr : runAsync (ev :: rest) a = runAsync rest (asyncStep ev a) := rfl
      rw [hr, ih (asyncStep ev a) h.2.1 h.2.2.1 h.2.2.2, h.1]

/-! ## Claim theorems -/

/-- Claim C1, counterexample: a caller-supplied observer that throws on every invocation
does prevent the persisted store from recording the transition — notifying the
simulating transition with a throwing observer propagates the exception and never
produces an updated store, refuting that the store reflects the new tag after each
notification. -/
theorem c1_cex :
    bridgedObserver (some fun _ _ => Except.error "observer boom") BridgeEvent.simulating
      none initialStore = Except.error "observer boom" := rfl

/-- Claim C1, amended: bridgedObserver invokes the caller observer before the store
update with no per-sink failure boundary, so a throwing caller observer makes every
notification propagate the exception and the store records none of the transitions;
only without a caller observer does the persisted store receive the full, correctly
ordered sequence of transitions. -/
theorem c1_throwing_observer_blocks_store (e : String) (ev : BridgeEvent)
    (data : Option BridgeData) (rest : List (BridgeEvent × Option BridgeData))
    (st : TransactionStore) :
    bridgedObserver (some fun _ _ => Except.error e) ev data st = Except.error e ∧
    notifyAll (some fun _ _ => Except.error e) ((ev, data) :: rest) st = Except.error e ∧
    ∀ evs : List (BridgeEvent × Option BridgeData),
      notifyAll none evs st
        = Except.ok (evs.foldl (fun s p => applySwitch p.1 p.2 s) st) :=
  ⟨rfl, rfl, fun evs => notifyAll_none evs st⟩

/-- Claim C4, confirmed: the mintWrap catch clause re-throws the four typed
configuration/validation errors unmodified without touching the lifecycle state; any
other Error sets failed with its message recorded and is re-thrown wrapped as
"Minting failed: message"; a non-Error value sets failed and throws the generic
wrapped Error, whose own message is what gets recorded. -/
theorem c4_mintwrap_error_policy (m : String) (st : TransactionStore) :
    mintWrapCatch (.contractConfigurationError m) st = (.contractConfigurationError m, st) ∧
    mintWrapCatch (.invalidContractAddressError m) st = (.invalidContractAddressError m, st) ∧
    mintWrapCatch (.contractNotFoundError m) st = (.contractNotFoundError m, st) ∧
    mintWrapCatch (.contractValidationError m) st = (.contractValidationError m, st) ∧
    mintWrapCatch (.jsError m) st =
      (.jsError ("Minting failed: " ++ m),
        { st with transactionState := .failed, transactionError := some m }) ∧
    mintWrapCatch .nonErrorValue st =
      (.jsError "Minting failed: Unknown error occurred",
        { st with transactionState := .failed,
                  transactionError := some "Minting failed: Unknown error occurred" }) :=
  ⟨rfl, rfl, rfl, rfl, rfl, rfl⟩

/-- Claim C5, confirmed: a tick whose status query throws (a transient query error) is
fully absorbed — the observer state, store, hash, error message, and both timers are
left exactly unchanged, so polling continues to the next tick and failed is never
entered. -/
theorem c5_transient_query_error (o : ObserverState) (h : Nat) :
    step (ObsEvent.fireInterval h QueryOutcome.queryError) o = o := by
  cases hp : o.pollTimer <;> simp [step, hp, checkTransactionStatus]

/-- Claim C6, counterexample: with a mint polling and its tick's status query in
flight, resetState yields idle but cannot cancel the awaiting continuation; when the
query then resolves SUCCESS, the continuation runs setState confirmed with no session
re-check — a sink notification after the reset with no new mint, refuting the claim's
"no further sink notification occurs until a new mint is started". -/
theorem c6_cex :
    c6AfterReset.base.store = initialStore ∧
    c6AfterReset.base.pollTimer = none ∧
    c6AfterReset.base.deadlineTimer = none ∧
    c6Resolved.base.store ≠ c6AfterReset.base.store ∧
    c6Resolved.base.store.transactionState = TransactionState.confirmed := by
  decide

/-- Claim C6, amended: reset from any state synchronously cancels both timers and
yields the idle store with null hash and null error, and leaves a post-reset state in
which no timer can fire and no new query can start — so when no status query was in
flight at the reset, no async trace produces any further sink notification until a new
mint; but reset does not cancel a status query already in flight (its continuation
keeps no session token), so such a query resolving SUCCESS afterwards still notifies
the store with the confirmed tag. -/
theorem c6_reset_vs_in_flight (a : AsyncObserverState) (evs : List AsyncEvent) :
    (asyncResetState a).base.store = initialStore ∧
    (asyncResetState a).base.pollTimer = none ∧
    (asyncResetState a).base.deadlineTimer = none ∧
    (asyncResetState a).inFlight = a.inFlight ∧
    (a.inFlight = [] → (runAsync evs (asyncResetState a)).base.store = initialStore) ∧
    (∀ tx rest, a.inFlight = tx :: rest →
      (asyncStep (AsyncEvent.resolveQuery 0 (QueryOutcome.ok GetTransactionStatus.SUCCESS))
          (asyncResetState a)).base.store.transactionState
        = TransactionState.confirmed) := by
  refine ⟨rfl, rfl, rfl, rfl, ?_, ?_⟩
  · intro hf
    rw [runAsync_quiescent evs (asyncResetState a) rfl rfl hf]
    rfl
  · intro tx rest hf
    have hf2 : (asyncResetState a).inFlight = tx :: rest := hf
    have hs : asyncStep (AsyncEvent.resolveQuery 0 (QueryOutcome.ok GetTransactionStatus.SUCCESS))
        (asyncResetState a)
        = { base := checkTransactionStatus (QueryOutcome.ok GetTransactionStatus.SUCCESS)
              (asyncResetState a).base,
            inFlight := (asyncResetState a).inFlight.eraseIdx 0 } := by
      simp [asyncStep, hf2]
    rw [hs]
    rfl

/-- Claim C6 witness: a reset with nothing in flight stays silent under a later timer
firing, while the concrete in-flight scenario resolves to confirmed after its reset. -/
theorem c6_witness :
    (runAsync [AsyncEvent.fireInterval 0]
        (asyncResetState
          { base := markSubmitted "h" initialObserver, inFlight := [] })).base.store
      = initialStore ∧
    c6Resolved.base.store.transactionState = TransactionState.confirmed := by
  have h1 := c6_reset_vs_in_flight
    { base := markSubmitted "h" initialObserver, inFlight := [] }
    [AsyncEvent.fireInterval 0]
  have h2 := c6_reset_vs_in_flight
    (asyncStep (AsyncEvent.fireInterval 0)
      { base := markSubmitted "h" initialObserver, inFlight := [] }) []
  exact ⟨h1.2.2.2.2.1 rfl, h2.2.2.2.2.2 "h" [] rfl⟩

/-- Claim C9, confirmed: when mintWrap is called without caller-supplied stats and the
stats fetch rejects or returns a non-ok response, the resolved stats are exactly the
defaults (totalVolume 0, mostActiveAsset XLM, contractCalls 0) and the store still
reaches the building tag. -/
theorem c9_stats_fetch_failure (outcome : FetchOutcome) (st : TransactionStore)
    (hf : outcome.isFailure) :
    (mintWrapSetup none outcome st).stats = Stats.mk 0 "XLM" 0 ∧
    (mintWrapSetup none outcome st).store.transactionState = TransactionState.building := by
  cases outcome with
  | reject => exact ⟨rfl, rfl⟩
  | response ok tv ma cc =>
      have hok : ok = false := hf
      subst hok
      exact ⟨rfl, rfl⟩

/-- Claim C9 witness: a rejecting stats fetch at the initial store. -/
theorem c9_witness :
    (mintWrapSetup none FetchOutcome.reject initialStore).stats = Stats.mk 0 "XLM" 0 ∧
    (mintWrapSetup none FetchOutcome.reject initialStore).store.transactionState
      = TransactionState.building :=
  c9_stats_fetch_failure FetchOutcome.reject initialStore trivial

/-- Claim C10, confirmed: a thrown non-Error value makes mintWrap set the failed tag
with errorMessage "Minting failed: Unknown error occurred" and throw an Error carrying
that exact message. -/
theorem c10_non_error_value (st : TransactionStore) :
    mintWrapCatch ThrownValue.nonErrorValue st =
      (ThrownValue.jsError "Minting failed: Unknown error occurred",
        { st with transactionState := TransactionState.failed,
                  transactionError := some "Minting failed: Unknown error occurred" }) :=
  rfl

/-- Claim C3, counterexample: when the deadline fires on an active session the state
does become failed, but the recorded message is the code's
"Transaction confirmation timed out after 60 seconds.", not the claimed
"confirmation timed out after 60000 ms" with the configured duration substituted. -/
theorem c3_cex :
    (step (ObsEvent.fireDeadline 1)
        (startPolling "h" initialObserver)).store.transactionState
      = TransactionState.failed ∧
    (step (ObsEvent.fireDeadline 1)
        (startPolling "h" initialObserver)).store.transactionError
      = some "Transaction confirmation timed out after 60 seconds." ∧
    (step (ObsEvent.fireDeadline 1)
        (startPolling "h" initialObserver)).store.transactionError
      ≠ some "confirmation timed out after 60000 ms" := by
  decide

/-- Claim C3, amended: for an active polling session, NOT_FOUND ticks change nothing;
when the deadline timer fires, the state becomes failed with the timeout message
"Transaction confirmation timed out after 60 seconds.", both timers are cancelled, and
from that point no trace of timer events ever issues another status query. -/
theorem c3_timeout_terminal (o : ObserverState) (ph dh : Nat) (tx : String) (ft : Nat)
    (hp : o.pollTimer = some (ph, tx)) (hd : o.deadlineTimer = some (dh, ft)) :
    step (ObsEvent.fireInterval ph (QueryOutcome.ok GetTransactionStatus.NOT_FOUND)) o
      = o ∧
    (step (ObsEvent.fireDeadline dh) o).store.transactionState = TransactionState.failed ∧
    (step (ObsEvent.fireDeadline dh) o).store.transactionError
      = some "Transaction confirmation timed out after 60 seconds." ∧
    (step (ObsEvent.fireDeadline dh) o).pollTimer = none ∧
    (step (ObsEvent.fireDeadline dh) o).deadlineTimer = none ∧
    ∀ evs : List ObsEvent,
      anyQueryIssued evs (step (ObsEvent.fireDeadline dh) o) = false := by
  have hstep : step (ObsEvent.fireDeadline dh) o = onDeadline o := by
    simp [step, hd]
  refine ⟨?_, ?_, ?_, ?_, ?_, ?_⟩
  · simp [step, hp, checkTransactionStatus]
  · rw [hstep]; rfl
  · rw [hstep]; rfl
  · rw [hstep]; rfl
  · rw [hstep]; rfl
  · intro evs
    rw [hstep]
    exact anyQueryIssued_noTimers evs (onDeadline o) rfl rfl

/-- Claim C3 witness: a fresh session started by startPolling, its deadline firing, and
a subsequent tick issuing no query. -/
theorem c3_witness :
    (step (ObsEvent.fireDeadline 1) (startPolling "h" initialObserver)).pollTimer
      = none ∧
    anyQueryIssued [ObsEvent.fireInterval 0 (QueryOutcome.ok GetTransactionStatus.SUCCESS)]
      (step (ObsEvent.fireDeadline 1) (startPolling "h" initialObserver)) = false := by
  have h := c3_timeout_terminal (startPolling "h" initialObserver) 0 1 "h" 60000 rfl rfl
  exact ⟨h.2.2.2.1, h.2.2.2.2.2 _⟩

/-- Claim C2, counterexample: with a first mint polling (markSubmitted installed the
deadline timer with handle 1), starting a second mint through walletKit mintWrap leaves
that timer installed, and its later firing mutates the shared store to failed — a
first-session timer callback acting after the second mint started. -/
theorem c2_cex :
    (markSubmitted "hash1" initialObserver).deadlineTimer = some (1, 60000) ∧
    (mintWrapStart (markSubmitted "hash1" initialObserver)).deadlineTimer
      = some (1, 60000) ∧
    (step (ObsEvent.fireDeadline 1)
        (mintWrapStart (markSubmitted "hash1" initialObserver))).store
      ≠ (mintWrapStart (markSubmitted "hash1" initialObserver)).store ∧
    (step (ObsEvent.fireDeadline 1)
        (mintWrapStart (markSubmitted "hash1" initialObserver))).store.transactionState
      = TransactionState.failed := by
  decide

/-- Claim C2, amended: starting a second mint through walletKit mintWrap resets the
shared store but cancels neither of the first session's timers, so a stale
first-session deadline timer can still fire afterwards and mark the shared state
failed; only the observer's own startTransaction cancels both timers. -/
theorem c2_second_mint_keeps_stale_timers (o : ObserverState) (dh ft : Nat)
    (hd : o.deadlineTimer = some (dh, ft)) :
    (mintWrapStart o).pollTimer = o.pollTimer ∧
    (mintWrapStart o).deadlineTimer = o.deadlineTimer ∧
    (step (ObsEvent.fireDeadline dh) (mintWrapStart o)).store.transactionState
      = TransactionState.failed ∧
    (startTransaction o).pollTimer = none ∧
    (startTransaction o).deadlineTimer = none := by
  refine ⟨rfl, rfl, ?_, rfl, rfl⟩
  have hd2 : (mintWrapStart o).deadlineTimer = some (dh, ft) := hd
  have hstep : step (ObsEvent.fireDeadline dh) (mintWrapStart o)
      = onDeadline (mintWrapStart o) := by
    simp [step, hd2]
  rw [hstep]; rfl

/-- Claim C2 witness: the stale deadline of the superseded first session marks the
second mint's state failed. -/
theorem c2_witness :
    (step (ObsEvent.fireDeadline 1)
        (mintWrapStart (markSubmitted "hash1" initialObserver))).store.transactionState
      = TransactionState.failed :=
  (c2_second_mint_keeps_stale_timers (markSubmitted "hash1" initialObserver) 1 60000
    rfl).2.2.1

/-- Every exposed operation preserves the invariant that a failed tag carries a
non-null error message. -/
theorem errInv_applyOp (op : ObsOp) (o : ObserverState)
    (h : o.store.transactionState = TransactionState.failed →
      o.store.transactionError ≠ none) :
    (applyOp op o).store.transactionState = TransactionState.failed →
      (applyOp op o).store.transactionError ≠ none := by
  cases op with
  | startTransaction => intro hq; exact TransactionState.noConfusion hq
  | markSimulating => intro hq; exact TransactionState.noConfusion hq
  | markSimulated => intro hq; exact TransactionState.noConfusion hq
  | markSigning => intro hq; exact TransactionState.noConfusion hq
  | markSigned => intro hq; exact TransactionState.noConfusion hq
  | markSubmitting => intro hq; exact TransactionState.noConfusion hq
  | markSubmitted tx => intro hq; exact TransactionState.noConfusion hq
  | markFailed e => intro _ hn; exact Option.noConfusion hn
  | resetState => intro hq; exact TransactionState.noConfusion hq
  | advance d => exact h
  | tick th outcome =>
      show (step (.fireInterval th outcome) o).store.transactionState = _ →
        (step (.fireInterval th outcome) o).store.transactionError ≠ none
      cases hpt : o.pollTimer with
      | none =>
          have hs : step (.fireInterval th outcome) o = o := by simp [step, hpt]
          rw [hs]; exact h
      | some p =>
          by_cases hph : p.1 = th
          · have hs : step (.fireInterval th outcome) o
                = checkTransactionStatus outcome o := by simp [step, hpt, hph]
            rw [hs]
            cases outcome with
            | queryError => exact h
            | ok s =>
                cases s with
                | SUCCESS => intro hq; exact TransactionState.noConfusion hq
                | FAILED => intro _ hn; exact Option.noConfusion hn
                | NOT_FOUND => exact h
          · have hs : step (.fireInterval th outcome) o = o := by simp [step, hpt, hph]
            rw [hs]; exact h
  | deadline dh =>
      show (step (.fireDeadline dh) o).store.transactionState = _ →
        (step (.fireDeadline dh) o).store.transactionError ≠ none
      cases hdt : o.deadlineTimer with
      | none =>
          have hs : step (.fireDeadline dh) o = o := by simp [step, hdt]
          rw [hs]; exact h
      | some d =>
          by_cases hdh : d.1 = dh
          · have hs : step (.fireDeadline dh) o = onDeadline o := by
              simp [step, hdt, hdh]
            rw [hs]; intro _ hn; exact Option.noConfusion hn
          · have hs : step (.fireDeadline dh) o = o := by simp [step, hdt, hdh]
            rw [hs]; exact h

/-- Claim C7, counterexample: the sequence markFailed "boom" then markSimulating leaves
a non-null errorMessage while the tag is simulating, because no mutator except reset
clears the error — refuting the claimed "non-null iff failed" over all reachable
states. -/
theorem c7_cex :
    (runOps [ObsOp.markFailed (ErrorOrString.str "boom"), ObsOp.markSimulating]
        initialObserver).store.transactionError ≠ none ∧
    (runOps [ObsOp.markFailed (ErrorOrString.str "boom"), ObsOp.markSimulating]
        initialObserver).store.transactionState ≠ TransactionState.failed := by
  decide

/-- Claim C7, amended: in every state reachable by the exposed mutators and poller
steps, a failed tag implies a non-null errorMessage; the converse fails because forward
mutators after a failure do not clear the stored error (see the counterexample). -/
theorem c7_failed_implies_error (ops : List ObsOp) :
    (runOps ops initialObserver).store.transactionState = TransactionState.failed →
    (runOps ops initialObserver).store.transactionError ≠ none := by
  have main : ∀ (l : List ObsOp) (o : ObserverState),
      (o.store.transactionState = TransactionState.failed →
        o.store.transactionError ≠ none) →
      ((runOps l o).store.transactionState = TransactionState.failed →
        (runOps l o).store.transactionError ≠ none) := by
    intro l
    induction l with
    | nil => intro o h; exact h
    | cons op rest ih => intro o h; exact ih (applyOp op o) (errInv_applyOp op o h)
  exact main ops initialObserver (fun hq => absurd hq (by decide))

/-- Claim C7 witness: after a single markFailed the stored error is non-null. -/
theorem c7_witness :
    (runOps [ObsOp.markFailed (ErrorOrString.str "x")]
        initialObserver).store.transactionError ≠ none :=
  c7_failed_implies_error [ObsOp.markFailed (ErrorOrString.str "x")] (by decide)

/-- Claim C8, confirmed: resumeIfPending re-attaches a fresh polling session exactly
when the persisted tag is submitted or confirming and a non-empty hash is present, and
the restarted session's deadline timer is scheduled a full MAX_POLLING_DURATION from
now — a fresh 60-second budget, not the remainder of the original deadline; otherwise
the observer state is left untouched. -/
theorem c8_resume_semantics (o : ObserverState) :
    (resumeCondition o = true →
      resumeIfPending o = startPolling (o.store.transactionHash.getD "") o ∧
      (resumeIfPending o).pollTimer
        = some (o.nextHandle, o.store.transactionHash.getD "") ∧
      (resumeIfPending o).deadlineTimer
        = some (o.nextHandle + 1, o.now + MAX_POLLING_DURATION)) ∧
    (resumeCondition o = false → resumeIfPending o = o) := by
  constructor
  · intro hc
    cases hh : o.store.transactionHash with
    | none =>
        simp only [resumeCondition, hh] at hc
        exact Bool.noConfusion hc
    | some h =>
        simp only [resumeCondition, hh] at hc
        have hP := of_decide_eq_true hc
        have hr : resumeIfPending o = startPolling h o := by
          simp only [resumeIfPending, hh]
          rw [if_pos hP]
        rw [hr]
        exact ⟨rfl, rfl, rfl⟩
  · intro hc
    cases hh : o.store.transactionHash with
    | none => simp only [resumeIfPending, hh]
    | some h =>
        simp only [resumeCondition, hh] at hc
        have hnP := of_decide_eq_false hc
        simp only [resumeIfPending, hh]
        rw [if_neg hnP]

/-- Claim C8 witness: a submitted state with hash abc restarts polling with a fresh
60000 ms deadline, and the idle initial state is left untouched. -/
theorem c8_witness :
    resumeIfPending resumeWitnessState = startPolling "abc" resumeWitnessState ∧
    (resumeIfPending resumeWitnessState).deadlineTimer = some (1, 60000) ∧
    resumeIfPending initialObserver = initialObserver := by
  have h := (c8_resume_semantics resumeWitnessState).1 (by decide)
  exact ⟨h.1, h.2.2, (c8_resume_semantics initialObserver).2 (by decide)⟩
